import Mathlib

/-!
Verification of the training control loop of the bert-text-classifier
repository.

The embedding below is a shallow model of the code in
src/classify/trainer.py (class BertTrainer: methods init, save, train)
and src/classify/train.py (the functions ensure defaults and main,
in particular the resume-path handling).

Modelling conventions:
- The numeric backend (forward, backward, optimizer arithmetic, metric
  formulas) is opaque.  Model and optimizer state dicts are identified by
  the number of optimizer steps that have been applied to them: each call
  of optimizer.step() moves the state to the next index.  This is enough
  to reason about which snapshot a checkpoint holds.
- The per-epoch validation loss returned by BertTrainer.eval is an input
  to the loop: a run is parameterised by the list of validation losses,
  one per epoch (the list length plays the role of max_epochs).
- numpy.inf, the initial value of the local best_val_loss in
  BertTrainer.train, is modelled by Option: none stands for infinity and
  every rational loss compares strictly below it.
- Python integers are Int, batch and step counters are Nat.
-/

namespace BertClassifier

/-- Checkpoint is the dictionary built by BertTrainer.save
(trainer.py lines 45-48): it holds exactly the model state dict and the
optimizer state dict, each identified by the number of optimizer steps
applied at save time.  No scalar loop field is part of it. -/
structure Checkpoint where
  modelBlob : Nat
  optimizerBlob : Nat
deriving DecidableEq

/-- Key names of the checkpoint dictionary written by BertTrainer.save
(trainer.py lines 45-48). -/
def checkpointKeys : List String := ["model", "optimizer"]

/-- TrainerState collects the mutable attributes of BertTrainer that the
control loop touches (trainer.py, init lines 25-36 and train lines
97-160), together with the local best_val_loss of train and the content
of the single checkpoint file written by save.  The fields epochsRun and
nonImproving are ghost observers counting executed epochs and
non-improving evaluations; they influence nothing. -/
structure TrainerState where
  timestep : Nat
  optSteps : Nat
  epoch : Nat
  patience : Int
  bestValLoss : Option ℚ
  checkpointFile : Option Checkpoint
  stoppedEarly : Bool
  epochsRun : Nat
  nonImproving : Nat
deriving DecidableEq

/-- initState is the state established by BertTrainer.init
(trainer.py lines 25-36): timestep 0, epoch 0, the configured patience;
no checkpoint written yet and best_val_loss still at infinity. -/
def initState (patience : Int) : TrainerState :=
  { timestep := 0
    optSteps := 0
    epoch := 0
    patience := patience
    bestValLoss := none
    checkpointFile := none
    stoppedEarly := false
    epochsRun := 0
    nonImproving := 0 }

/-- onBatchProcessed is one iteration of the inner batch loop of
BertTrainer.train (trainer.py lines 105-111): classify, increment
timestep, compute the loss, backward, and unconditionally
optimizer.step().  Every micro-batch applies exactly one optimizer
step; there is no accumulation counter in the code. -/
def onBatchProcessed (s : TrainerState) : TrainerState :=
  { s with timestep := s.timestep + 1, optSteps := s.optSteps + 1 }

/-- runBatches runs the inner batch loop over n batches. -/
def runBatches : Nat → TrainerState → TrainerState
  | 0, s => s
  | n + 1, s => runBatches n (onBatchProcessed s)

/-- improves is the comparison on trainer.py line 138:
val_loss < best_val_loss, with best_val_loss initially numpy.inf
(modelled by none).  Improvement means the validation loss is strictly
smaller than the best seen so far; the very first evaluation always
improves. -/
def improves (s : TrainerState) (l : ℚ) : Bool :=
  match s.bestValLoss with
  | none => true
  | some b => decide (l < b)

/-- saveCheckpoint is BertTrainer.save (trainer.py lines 38-51): it
snapshots the current model and optimizer state dicts. -/
def saveCheckpoint (s : TrainerState) : Checkpoint :=
  { modelBlob := s.optSteps, optimizerBlob := s.optSteps }

/-- runEpoch is one iteration of the outer epoch loop of
BertTrainer.train (trainer.py lines 101-160): record the epoch index,
run all batches, evaluate, then either update best_val_loss and save a
checkpoint (improvement branch, lines 138-153) or decrement patience
(line 155), and finally break out of the loop when patience is exactly
zero (lines 158-160, modelled by setting stoppedEarly). -/
def runEpoch (nb : Nat) (e : Nat) (l : ℚ) (s : TrainerState) : TrainerState :=
  let s1 := runBatches nb { s with epoch := e, epochsRun := s.epochsRun + 1 }
  let s2 :=
    if improves s1 l then
      { s1 with bestValLoss := some l
                checkpointFile := some (saveCheckpoint s1) }
    else
      { s1 with patience := s1.patience - 1
                nonImproving := s1.nonImproving + 1 }
  if s2.patience = 0 then { s2 with stoppedEarly := true } else s2

/-- trainLoop iterates runEpoch over the per-epoch validation losses,
starting at epoch index e, and stops iterating once the break of
trainer.py line 160 has fired. -/
def trainLoop (nb : Nat) : Nat → List ℚ → TrainerState → TrainerState
  | _, [], s => s
  | e, l :: rest, s =>
    if s.stoppedEarly then s
    else trainLoop nb (e + 1) rest (runEpoch nb e l s)

/-- train is BertTrainer.train (trainer.py lines 97-160) for a run with
nb batches per epoch and the given list of per-epoch validation
losses (its length is max_epochs). -/
def train (nb : Nat) (losses : List ℚ) (s : TrainerState) : TrainerState :=
  trainLoop nb 0 losses s

/-- liveModel is the model state held in memory: the number of optimizer
steps that have been applied to it.  BertTrainer.train returns with this
in-memory model; it performs no load of any checkpoint. -/
def liveModel (s : TrainerState) : Nat := s.optSteps

/-- withBest overrides the best-so-far value of a state; an observer
used to state properties of the comparison on trainer.py line 138. -/
def withBest (s : TrainerState) (b : ℚ) : TrainerState :=
  { s with bestValLoss := some b }

/-- ArgsIn models an argument namespace before the defaults shim of
train.py runs: a field is none when the attribute is absent. -/
structure ArgsIn where
  patience : Option Int
  gradientAccumulationSteps : Option Int
  evalSteps : Option (Option Nat)
  saveSteps : Option (Option Nat)
  resumeFrom : Option (Option String)
deriving DecidableEq

/-- Args models the argument namespace after the defaults shim. -/
structure Args where
  patience : Int
  gradientAccumulationSteps : Int
  evalSteps : Option Nat
  saveSteps : Option Nat
  resumeFrom : Option String
deriving DecidableEq

/-- ensureDefaults embeds the compat defaults shim of train.py
(lines 23-46): an absent attribute receives its default (patience 2,
gradient accumulation 1, eval and save cadence absent, no resume path);
a present attribute is kept unchanged, whatever its value.  No
validation of any kind is performed. -/
def ensureDefaults (a : ArgsIn) : Args :=
  { patience := a.patience.getD 2
    gradientAccumulationSteps := a.gradientAccumulationSteps.getD 1
    evalSteps := a.evalSteps.getD none
    saveSteps := a.saveSteps.getD none
    resumeFrom := a.resumeFrom.getD none }

/-- ConfigError is the error type named by the specification for invalid
configuration.  The code of the repository never raises it: neither
train.py nor BertTrainer.init validates the accumulation window or the
patience value. -/
inductive ConfigError where
  | invalidAccumulationWindow
  | nonPositivePatience
deriving DecidableEq

/-- initTrainerE embeds construction of the trainer from a resolved
argument namespace as a fallible operation.  The source
(BertTrainer.init, trainer.py lines 12-36, and train.py lines 195-227)
contains no validation and can never fail, so every input maps to ok of
the fresh initial state. -/
def initTrainerE (a : Args) : Except ConfigError TrainerState :=
  Except.ok (initState a.patience)

/-- resolveResume embeds train.py lines 212-215: a configured resume
path that does not exist on disk is dropped (set back to none) after a
warning, and the run proceeds. -/
def resolveResume (resumeFrom : Option String) (pathExists : String → Bool) :
    Option String :=
  match resumeFrom with
  | none => none
  | some p => if pathExists p then some p else none

/-- startup embeds the controller start of train.py (lines 212-227):
the resume path is resolved against the file system, recorded on the
argument object, and the trainer is constructed.  BertTrainer.init and
BertTrainer.train never read the resume path and never load a
checkpoint, so the second component is always the fresh initial state. -/
def startup (a : Args) (pathExists : String → Bool) :
    Option String × TrainerState :=
  (resolveResume a.resumeFrom pathExists, initState a.patience)

/-- FileSystem maps a path to the checkpoint stored there, if any. -/
def FileSystem := String → Option Checkpoint

/-- emptyFS is the file system with no checkpoint written. -/
def emptyFS : FileSystem := fun _ => none

/-- saveFilename is the target path of BertTrainer.save (trainer.py
line 43): os.path.join of the output path with the constant name
model.pt.  It does not depend on the state being saved. -/
def saveFilename (outputPath : String) : String := outputPath ++ "/model.pt"

/-- writeSave is the effect of BertTrainer.save on the file system
(trainer.py line 51): torch.save writes the checkpoint directly to the
fixed path, replacing whatever was stored there. -/
def writeSave (outputPath : String) (s : TrainerState) (fs : FileSystem) :
    FileSystem :=
  fun p => if p = saveFilename outputPath then some (saveCheckpoint s) else fs p

/-- scenarioLosses is the scenario metric sequence
[0.80, 0.82, 0.81, 0.81, 0.79] carried to the loss scale consumed by
the code: negated, so that a strictly larger metric is a strictly
smaller loss, and scaled by 100, which preserves the strict-order
pattern that alone drives the loop. -/
def scenarioLosses : List ℚ := [-80, -82, -81, -81, -79]

/-- potential of a state: the patience left plus the non-improving
evaluations already consumed.  The loop keeps it constant. -/
def potential (s : TrainerState) : Int := s.patience + s.nonImproving

/-- Inv is the inductive invariant of the loop: a running state has
positive patience unless nothing has been evaluated yet, and a state
stopped early has patience exactly zero. -/
def Inv (s : TrainerState) : Prop :=
  (s.stoppedEarly = false →
    0 < s.patience ∨ (s.patience = 0 ∧ s.bestValLoss = none)) ∧
  (s.stoppedEarly = true → s.patience = 0)

theorem runBatches_spec (n : Nat) (s : TrainerState) :
    runBatches n s =
      { s with timestep := s.timestep + n, optSteps := s.optSteps + n } := by
  induction n generalizing s with
  | zero => simp [runBatches]
  | succ n ih =>
    obtain ⟨t, o, ep, p, b, c, st, er, ni⟩ := s
    rw [runBatches, ih]
    simp [onBatchProcessed, TrainerState.mk.injEq]
    omega

theorem runEpoch_eq (nb e : Nat) (l : ℚ) (s : TrainerState) :
    runEpoch nb e l s =
      { timestep := s.timestep + nb
        optSteps := s.optSteps + nb
        epoch := e
        patience := if improves s l then s.patience else s.patience - 1
        bestValLoss := if improves s l then some l else s.bestValLoss
        checkpointFile :=
          if improves s l then some ⟨s.optSteps + nb, s.optSteps + nb⟩
          else s.checkpointFile
        stoppedEarly :=
          if (if improves s l then s.patience else s.patience - 1) = 0 then true
          else s.stoppedEarly
        epochsRun := s.epochsRun + 1
        nonImproving :=
          if improves s l then s.nonImproving else s.nonImproving + 1 } := by
  obtain ⟨t, o, ep, p, b, c, st, er, ni⟩ := s
  cases b with
  | none =>
    by_cases hz : p = 0 <;>
      simp [runEpoch, runBatches_spec, improves, saveCheckpoint, hz]
  | some bv =>
    by_cases hlt : l < bv
    · by_cases hz : p = 0 <;>
        simp [runEpoch, runBatches_spec, improves, saveCheckpoint, hlt, hz]
    · by_cases hz : p - 1 = 0 <;>
        simp [runEpoch, runBatches_spec, improves, saveCheckpoint, hlt, hz]

theorem runEpoch_patience (nb e : Nat) (l : ℚ) (s : TrainerState) :
    (runEpoch nb e l s).patience =
      if improves s l then s.patience else s.patience - 1 := by
  rw [runEpoch_eq]

theorem runEpoch_bestValLoss (nb e : Nat) (l : ℚ) (s : TrainerState) :
    (runEpoch nb e l s).bestValLoss =
      if improves s l then some l else s.bestValLoss := by
  rw [runEpoch_eq]

theorem runEpoch_optSteps (nb e : Nat) (l : ℚ) (s : TrainerState) :
    (runEpoch nb e l s).optSteps = s.optSteps + nb := by
  rw [runEpoch_eq]

theorem runEpoch_epochsRun (nb e : Nat) (l : ℚ) (s : TrainerState) :
    (runEpoch nb e l s).epochsRun = s.epochsRun + 1 := by
  rw [runEpoch_eq]

theorem runEpoch_stoppedEarly (nb e : Nat) (l : ℚ) (s : TrainerState) :
    (runEpoch nb e l s).stoppedEarly =
      if (if improves s l then s.patience else s.patience - 1) = 0 then true
      else s.stoppedEarly := by
  rw [runEpoch_eq]

theorem runEpoch_nonImproving (nb e : Nat) (l : ℚ) (s : TrainerState) :
    (runEpoch nb e l s).nonImproving =
      if improves s l then s.nonImproving else s.nonImproving + 1 := by
  rw [runEpoch_eq]

theorem runEpoch_potential (nb e : Nat) (l : ℚ) (s : TrainerState) :
    potential (runEpoch nb e l s) = potential s := by
  unfold potential
  rw [runEpoch_patience, runEpoch_nonImproving]
  by_cases h : improves s l <;> simp [h]

theorem runEpoch_inv (nb e : Nat) (l : ℚ) (s : TrainerState)
    (h : Inv s) (hns : s.stoppedEarly = false) : Inv (runEpoch nb e l s) := by
  have hp := runEpoch_patience nb e l s
  have hs := runEpoch_stoppedEarly nb e l s
  by_cases himp : improves s l
  · simp only [himp, if_true] at hp hs
    constructor
    · intro hst
      rw [hs] at hst
      by_cases hz : s.patience = 0
      · simp [hz] at hst
      · rw [hp]
        left
        rcases h.1 hns with h1 | ⟨h0, _⟩
        · exact h1
        · exact absurd h0 hz
    · intro hst
      rw [hs] at hst
      by_cases hz : s.patience = 0
      · rw [hp]
        exact hz
      · simp [hz, hns] at hst
  · have himp2 : improves s l = false := by simpa using himp
    simp only [himp2, if_false] at hp hs
    have hpos : 0 < s.patience := by
      rcases h.1 hns with h1 | ⟨_, hbn⟩
      · exact h1
      · exfalso
        unfold improves at himp2
        rw [hbn] at himp2
        simp at himp2
    constructor
    · intro hst
      rw [hs] at hst
      by_cases hz : s.patience - 1 = 0
      · simp [hz] at hst
      · rw [hp]
        left
        omega
    · intro hst
      rw [hs] at hst
      by_cases hz : s.patience - 1 = 0
      · rw [hp]
        exact hz
      · simp [hz, hns] at hst

theorem trainLoop_inv (nb : Nat) (losses : List ℚ) :
    ∀ (e : Nat) (s : TrainerState), Inv s →
      Inv (trainLoop nb e losses s) ∧
        potential (trainLoop nb e losses s) = potential s := by
  induction losses with
  | nil => intro e s h; exact And.intro h rfl
  | cons l rest ih =>
    intro e s h
    rw [trainLoop]
    by_cases hst : s.stoppedEarly = true
    · simp only [hst, if_true]
      exact And.intro h trivial
    · have hns : s.stoppedEarly = false := by
        cases hb : s.stoppedEarly
        · rfl
        · exact absurd hb hst
      simp only [hns, Bool.false_eq_true, if_false]
      have hI := runEpoch_inv nb e l s h hns
      obtain ⟨hI2, hpot⟩ := ih (e + 1) (runEpoch nb e l s) hI
      exact And.intro hI2 (by rw [hpot, runEpoch_potential])

theorem patience_nonneg_of_inv (s : TrainerState) (h : Inv s) :
    0 ≤ s.patience := by
  cases hst : s.stoppedEarly
  · rcases h.1 hst with hp | ⟨hp0, _⟩ <;> omega
  · have := h.2 hst
    omega

theorem trainLoop_patience_le (nb : Nat) (losses : List ℚ) :
    ∀ (e : Nat) (s : TrainerState),
      (trainLoop nb e losses s).patience ≤ s.patience := by
  induction losses with
  | nil => intro e s; simp [trainLoop]
  | cons l rest ih =>
    intro e s
    rw [trainLoop]
    by_cases hst : s.stoppedEarly = true
    · simp [hst]
    · have hns : s.stoppedEarly = false := by
        cases hb : s.stoppedEarly
        · rfl
        · exact absurd hb hst
      simp [hns]
      refine le_trans (ih (e + 1) (runEpoch nb e l s)) ?_
      rw [runEpoch_patience]
      by_cases h : improves s l <;> simp [h]

theorem trainLoop_opt_epochs (nb : Nat) (losses : List ℚ) :
    ∀ (e : Nat) (s : TrainerState), s.optSteps = nb * s.epochsRun →
      (trainLoop nb e losses s).optSteps =
        nb * (trainLoop nb e losses s).epochsRun := by
  induction losses with
  | nil => intro e s h; simpa [trainLoop] using h
  | cons l rest ih =>
    intro e s h
    rw [trainLoop]
    by_cases hst : s.stoppedEarly = true
    · simpa [hst] using h
    · have hns : s.stoppedEarly = false := by
        cases hb : s.stoppedEarly
        · rfl
        · exact absurd hb hst
      simp [hns]
      refine ih (e + 1) (runEpoch nb e l s) ?_
      rw [runEpoch_optSteps, runEpoch_epochsRun, h, Nat.mul_succ]

theorem init_inv (p : Nat) : Inv (initState (p : Int)) := by
  constructor
  · intro _
    rcases Nat.eq_zero_or_pos p with hp | hp
    · right
      simp [initState, hp]
    · left
      simp [initState]
      exact_mod_cast hp
  · intro hst
    simp [initState] at hst

/-- C1 counterexample: the specification predicts that with accumulation
window 4, ten batch calls yield a global step count of 2 (an optimizer
step only once the accumulation count reaches the window).  In the code
the configured window is accepted by the defaults shim but never
consulted: ten batch calls apply ten optimizer steps, and already the
first call applies one. -/
theorem C1_no_accumulation_counterexample :
    (ensureDefaults ⟨some 2, some 4, none, none, none⟩).gradientAccumulationSteps
        = 4 ∧
    (runBatches 10
        (initState
          (ensureDefaults ⟨some 2, some 4, none, none, none⟩).patience)).optSteps
        = 10 ∧
    (runBatches 10
        (initState
          (ensureDefaults ⟨some 2, some 4, none, none, none⟩).patience)).optSteps
        ≠ 2 ∧
    (runBatches 1 (initState 2)).optSteps = 1 := by
  decide

/-- C1 amended: every processed batch increments the micro-batch counter
by exactly 1 and applies exactly one optimizer step, so after n batch
calls the optimizer-step count is n.  The configured accumulation window
is ignored by the loop; there is no accumulation count. -/
theorem C1_step_every_batch :
    (∀ s : TrainerState,
        (onBatchProcessed s).timestep = s.timestep + 1 ∧
          (onBatchProcessed s).optSteps = s.optSteps + 1) ∧
    ∀ (n : Nat) (p : Int),
      (runBatches n (initState p)).optSteps = n ∧
        (runBatches n (initState p)).timestep = n := by
  refine ⟨fun s => ⟨rfl, rfl⟩, fun n p => ?_⟩
  rw [runBatches_spec]
  simp [initState]

/-- C2 counterexample: with configured patience 2 and per-epoch
validation losses 10, 20, 5, the third epoch strictly improves on the
best (5 < 10) after a non-improving second epoch.  The specification
says the improvement resets patience to the configured value 2; the
code leaves patience at 1 (it never resets it). -/
theorem C2_patience_not_reset_counterexample :
    (train 1 [10, 20, (5 : ℚ)] (initState 2)).bestValLoss = some 5 ∧
    (train 1 [10, 20, (5 : ℚ)] (initState 2)).patience = 1 ∧
    (train 1 [10, 20, (5 : ℚ)] (initState 2)).patience ≠ 2 := by
  decide

/-- C2 amended: on a strict improvement the best value becomes the new
evaluation value and patience is left unchanged (it is never reset);
patience is preserved by an epoch exactly when that epoch improves.  In
the scenario (patience 2, per-epoch values improving at epochs 1 and 2
and non-improving at epochs 3 and 4, the metric sequence
[0.80, 0.82, 0.81, 0.81, 0.79] carried to the loss scale), the best is
updated at epoch 2 and the loop stops after epoch 4 with the epoch-2
snapshot in the checkpoint file. -/
theorem C2_improvement_updates_best :
    (∀ (nb e : Nat) (l : ℚ) (s : TrainerState),
        (runEpoch nb e l s).bestValLoss =
          if improves s l then some l else s.bestValLoss) ∧
    (∀ (nb e : Nat) (l : ℚ) (s : TrainerState),
        ((runEpoch nb e l s).patience = s.patience ↔ improves s l = true)) ∧
    (train 1 scenarioLosses (initState 2)).bestValLoss = some (-82) ∧
    (train 1 scenarioLosses (initState 2)).epochsRun = 4 ∧
    (train 1 scenarioLosses (initState 2)).checkpointFile = some ⟨2, 2⟩ := by
  refine ⟨fun nb e l s => runEpoch_bestValLoss nb e l s,
    fun nb e l s => ?_, by decide, by decide, by decide⟩
  rw [runEpoch_patience]
  by_cases h : improves s l
  · simp [h]
  · simp [h]

/-- C3 counterexample: a run is configured to resume from a checkpoint
taken after 2 completed optimizer steps and the path exists, yet the
controller starts at timestep 0 (not 2) and the first processed batch
moves it to step 1 (not 3): the resumed run does not continue from the
interrupted global step. -/
theorem C3_no_resume_counterexample :
    (startup
        (ensureDefaults ⟨some 2, some 1, none, none,
          some (some "ckpt/checkpoint.pt")⟩)
        (fun _ => true)).1 = some "ckpt/checkpoint.pt" ∧
    (startup
        (ensureDefaults ⟨some 2, some 1, none, none,
          some (some "ckpt/checkpoint.pt")⟩)
        (fun _ => true)).2.timestep = 0 ∧
    (startup
        (ensureDefaults ⟨some 2, some 1, none, none,
          some (some "ckpt/checkpoint.pt")⟩)
        (fun _ => true)).2.timestep ≠ 2 ∧
    (onBatchProcessed
        (startup
          (ensureDefaults ⟨some 2, some 1, none, none,
            some (some "ckpt/checkpoint.pt")⟩)
          (fun _ => true)).2).optSteps = 1 ∧
    (onBatchProcessed
        (startup
          (ensureDefaults ⟨some 2, some 1, none, none,
            some (some "ckpt/checkpoint.pt")⟩)
          (fun _ => true)).2).optSteps ≠ 3 := by
  decide

/-- C3 amended: resume is not implemented.  Whatever resume path is
configured and whatever the file system contains, startup hands the
trainer the fresh initial state (timestep 0, epoch 0), and a resumed run
produces exactly the progression of a run started from scratch, so all
batches of the interrupted run are processed again. -/
theorem C3_restart_from_scratch :
    ∀ (a : Args) (f : String → Bool),
      (startup a f).2 = initState a.patience ∧
      (startup a f).2.timestep = 0 ∧
      (startup a f).2.epoch = 0 ∧
      ∀ (nb : Nat) (losses : List ℚ),
        train nb losses (startup a f).2 =
          train nb losses (initState a.patience) := by
  intro a f
  exact ⟨rfl, rfl, rfl, fun nb losses => rfl⟩

/-- C4 counterexample: in the scenario run (patience 2, improvements at
epochs 1 and 2, non-improvements at epochs 3 and 4, one batch per
epoch), the loop ends with the in-memory model trained through all 4
executed epochs (4 optimizer steps) while the best checkpoint on disk
holds the epoch-2 snapshot (2 steps).  The controller returns without
restoring, so the state handed back is the last-observed one, not the
best-observed one. -/
theorem C4_no_restore_counterexample :
    liveModel (train 1 scenarioLosses (initState 2)) = 4 ∧
    (train 1 scenarioLosses (initState 2)).checkpointFile = some ⟨2, 2⟩ ∧
    liveModel (train 1 scenarioLosses (initState 2)) ≠ 2 := by
  decide

/-- C4 amended: when the loop terminates the in-memory model is the
last-observed state: it has received one optimizer step per processed
batch across every executed epoch (never a restore from the checkpoint
file); the best-observed state exists only inside the checkpoint file,
as the scenario run shows. -/
theorem C4_last_state_returned :
    (∀ (nb : Nat) (losses : List ℚ) (p : Int),
        liveModel (train nb losses (initState p)) =
          nb * (train nb losses (initState p)).epochsRun) ∧
    liveModel (train 1 scenarioLosses (initState 2)) = 4 ∧
    (train 1 scenarioLosses (initState 2)).checkpointFile = some ⟨2, 2⟩ := by
  refine ⟨fun nb losses p => ?_, by decide, by decide⟩
  unfold liveModel train
  exact trainLoop_opt_epochs nb losses 0 (initState p) (by simp [initState])

/-- C5 counterexample: the persisted checkpoint dictionary has exactly
the keys model and optimizer.  None of the scalar fields required by the
specification (global_step, current_epoch, best_metric,
patience_remaining, is_best, timestamp) nor a schedule or scaler blob is
part of it. -/
theorem C5_checkpoint_fields_counterexample :
    checkpointKeys = ["model", "optimizer"] ∧
    "global_step" ∉ checkpointKeys ∧
    "current_epoch" ∉ checkpointKeys ∧
    "best_metric" ∉ checkpointKeys ∧
    "patience_remaining" ∉ checkpointKeys ∧
    "is_best" ∉ checkpointKeys ∧
    "timestamp" ∉ checkpointKeys ∧
    "schedule" ∉ checkpointKeys ∧
    "scaler" ∉ checkpointKeys := by
  decide

/-- C5 amended: a saved checkpoint contains exactly the model blob and
the optimizer blob, snapshotting the state dicts at save time, and
reading the written path back returns exactly what was saved; no loop
scalar is persisted, so only the blobs round-trip. -/
theorem C5_checkpoint_contents :
    checkpointKeys = ["model", "optimizer"] ∧
    (∀ (out : String) (s : TrainerState) (fs : FileSystem),
        writeSave out s fs (saveFilename out) = some (saveCheckpoint s)) ∧
    ∀ s : TrainerState,
      (saveCheckpoint s).modelBlob = s.optSteps ∧
        (saveCheckpoint s).optimizerBlob = s.optSteps := by
  refine ⟨rfl, fun out s fs => ?_, fun s => ⟨rfl, rfl⟩⟩
  simp [writeSave]

/-- C6 counterexample: two saves from different states both target the
single fixed path out/model.pt; after the second save that path holds
the second checkpoint and the previously written good checkpoint (3
optimizer steps) has been destroyed, contradicting the claim that a save
never mutates an existing checkpoint. -/
theorem C6_overwrite_counterexample :
    saveFilename "out" = "out/model.pt" ∧
    (writeSave "out" (runBatches 7 (initState 2))
        (writeSave "out" (runBatches 3 (initState 2)) emptyFS))
      (saveFilename "out") = some ⟨7, 7⟩ ∧
    (writeSave "out" (runBatches 7 (initState 2))
        (writeSave "out" (runBatches 3 (initState 2)) emptyFS))
      (saveFilename "out") ≠
        some (saveCheckpoint (runBatches 3 (initState 2))) := by
  decide

/-- C6 amended: every save writes the checkpoint directly (torch.save,
no temp file, no rename) to the one fixed path derived from the output
directory, so a later save completely overwrites an earlier one: the
file system after two saves equals the file system after the second save
alone, and reading the path back yields the last write. -/
theorem C6_save_overwrites_fixed_path :
    (∀ (out : String) (s1 s2 : TrainerState) (fs : FileSystem),
        writeSave out s2 (writeSave out s1 fs) = writeSave out s2 fs) ∧
    ∀ (out : String) (s : TrainerState) (fs : FileSystem),
      writeSave out s fs (saveFilename out) = some (saveCheckpoint s) := by
  constructor
  · intro out s1 s2 fs
    funext p
    unfold writeSave
    by_cases h : p = saveFilename out <;> simp [h]
  · intro out s fs
    simp [writeSave]

/-- C7 counterexample: a configuration with accumulation window 0 and
patience 0 is accepted: the defaults shim keeps both values unchanged
(no coercion to 1), trainer construction succeeds instead of failing
with a ConfigError, and training runs an epoch. -/
theorem C7_no_validation_counterexample :
    initTrainerE (ensureDefaults ⟨some 0, some 0, none, none, none⟩) =
        Except.ok (initState 0) ∧
    (ensureDefaults
        ⟨some 0, some 0, none, none, none⟩).gradientAccumulationSteps = 0 ∧
    (ensureDefaults
        ⟨some 0, some 0, none, none, none⟩).gradientAccumulationSteps ≠ 1 ∧
    (train 1 [(1 : ℚ)]
        (initState
          (ensureDefaults ⟨some 0, some 0, none, none, none⟩).patience)).epochsRun
        = 1 := by
  exact ⟨rfl, rfl, by decide, by decide⟩

/-- C7 amended: construction never fails and no value is validated: the
defaults shim passes every supplied value through unchanged (defaults
apply only to absent attributes), and the trainer is built from any
configuration, returning the fresh initial state. -/
theorem C7_construction_never_fails :
    ∀ (p w : Int) (es ss : Option Nat) (r : Option String),
      ensureDefaults ⟨some p, some w, some es, some ss, some r⟩ =
          ⟨p, w, es, ss, r⟩ ∧
        initTrainerE ⟨p, w, es, ss, r⟩ = Except.ok (initState p) := by
  intro p w es ss r
  exact ⟨rfl, rfl⟩

/-- C8 counterexample: the selection value compared by the loop is the
validation loss.  With losses 1 then 2, the second value is strictly
greater than the best (2 > 1); the specification counts that as an
improvement (patience kept, best updated to 2), but the code counts it
as a non-improvement: patience drops from 5 to 4 and the best stays 1. -/
theorem C8_greater_counterexample :
    (train 1 [1, (2 : ℚ)] (initState 5)).patience = 4 ∧
    (train 1 [1, (2 : ℚ)] (initState 5)).bestValLoss = some 1 ∧
    (train 1 [1, (2 : ℚ)] (initState 5)).patience ≠ 5 := by
  decide

/-- C8 amended: an evaluation counts as an improvement exactly when its
validation loss is strictly less than the best loss so far (lower is
better); a tie is a non-improvement.  Feeding the constant loss sequence
0.7, 0.7, 0.7 (scaled to 7) with patience 2 exhausts the policy after
exactly 2 non-improving evaluations, stopping the loop at epoch 3. -/
theorem C8_strict_less_ties_nonimproving :
    (∀ (s : TrainerState) (b l : ℚ),
        (improves (withBest s b) l = true ↔ l < b)) ∧
    (∀ (s : TrainerState) (b : ℚ), improves (withBest s b) b = false) ∧
    (train 1 [7, 7, (7 : ℚ)] (initState 2)).stoppedEarly = true ∧
    (train 1 [7, 7, (7 : ℚ)] (initState 2)).nonImproving = 2 ∧
    (train 1 [7, 7, (7 : ℚ)] (initState 2)).epochsRun = 3 := by
  refine ⟨fun s b l => ?_, fun s b => ?_, by decide, by decide, by decide⟩
  · simp [improves, withBest]
  · simp [improves, withBest]

/-- C9 counterexample: with a configured resume path that does not
exist, the controller drops the path and proceeds, but the fresh state
it falls back to has epoch counter 0, not 1 as the claim states. -/
theorem C9_epoch_numbering_counterexample :
    (startup
        (ensureDefaults ⟨some 2, some 1, none, none,
          some (some "gone/checkpoint.pt")⟩)
        (fun _ => false)).1 = none ∧
    (startup
        (ensureDefaults ⟨some 2, some 1, none, none,
          some (some "gone/checkpoint.pt")⟩)
        (fun _ => false)).2.epoch = 0 ∧
    (startup
        (ensureDefaults ⟨some 2, some 1, none, none,
          some (some "gone/checkpoint.pt")⟩)
        (fun _ => false)).2.epoch ≠ 1 ∧
    (startup
        (ensureDefaults ⟨some 2, some 1, none, none,
          some (some "gone/checkpoint.pt")⟩)
        (fun _ => false)).2.timestep = 0 := by
  decide

/-- C9 amended: a missing resume target is not fatal: the existence
check sets the resume path back to none and startup always succeeds,
handing the trainer the fresh initial state with epoch counter 0 (the
first epoch) and timestep 0, not stopped. -/
theorem C9_missing_resume_nonfatal :
    (∀ p : String, resolveResume (some p) (fun _ => false) = none) ∧
    ∀ (a : Args) (f : String → Bool),
      (startup a f).2 = initState a.patience ∧
        (startup a f).2.epoch = 0 ∧
        (startup a f).2.timestep = 0 ∧
        (startup a f).2.stoppedEarly = false := by
  exact ⟨fun p => rfl, fun a f => ⟨rfl, rfl, rfl, rfl⟩⟩

/-- C10: the patience counter never increases over a run; each epoch
decrements it by exactly 1 when the evaluation does not strictly improve
on the best and leaves it unchanged otherwise; and over a whole run
started with configured patience p, at most p non-improving evaluations
ever occur, whatever improvements happen in between. -/
theorem C10_patience_never_increases :
    (∀ (nb e : Nat) (l : ℚ) (s : TrainerState),
        (runEpoch nb e l s).patience =
          if improves s l then s.patience else s.patience - 1) ∧
    (∀ (nb e : Nat) (losses : List ℚ) (s : TrainerState),
        (trainLoop nb e losses s).patience ≤ s.patience) ∧
    ∀ (p nb : Nat) (losses : List ℚ),
      (train nb losses (initState p)).nonImproving ≤ p := by
  refine ⟨fun nb e l s => runEpoch_patience nb e l s,
    fun nb e losses s => trainLoop_patience_le nb losses e s,
    fun p nb losses => ?_⟩
  unfold train
  have h := trainLoop_inv nb losses 0 (initState p) (init_inv p)
  have hnn := patience_nonneg_of_inv _ h.1
  have hpot := h.2
  have h1 : (initState (p : Int)).patience = (p : Int) := rfl
  have h2 : ((initState (p : Int)).nonImproving : Int) = (0 : Int) := rfl
  unfold potential at hpot
  rw [h1, h2] at hpot
  omega


end BertClassifier
